import Mathlib

/-!
Shallow embedding of the RStudio C++ find-references module
(src/cpp/session/modules/clang/FindReferences.cpp) and of the Win32
output-capture facility (src/cpp/core/system/Win32OutputCapture.cpp),
together with theorems checking the natural-language specification
against the code.

Machine integers are modelled as Nat or Int, with an explicit reduction
modulo 2 ^ 32 where 32-bit unsigned conversion matters.  C++ strings are
modelled character-wise (byte positions become character positions).
-/

namespace FindRefs

/-- A cursor location as produced by the libclang wrapper: file path,
1-based line, 1-based column, and the extent (length in characters) of
the referenced token. -/
structure CursorLocation where
  filePath : String
  line : Nat
  column : Nat
  extent : Nat
deriving DecidableEq, Repr

/-- C++ std::string substr(pos, len), character-wise. -/
def substr (s : String) (pos len : Nat) : String :=
  String.mk ((s.data.drop pos).take len)

/-- C++ std::string substr(pos) (suffix from position pos), character-wise. -/
def substrFrom (s : String) (pos : Nat) : String :=
  String.mk (s.data.drop pos)

/-- Modelled from the spec: string_utils::htmlEscape is outside the excerpt
(core/StringUtils.cpp); the spec only says text is "HTML-escaped", so the
four standard character entities are escaped. -/
def escapeChar (c : Char) : List Char :=
  if c = '&' then "&amp;".data
  else if c = '<' then "&lt;".data
  else if c = '>' then "&gt;".data
  else if c = '"' then "&quot;".data
  else [c]

/-- HTML-escape a string character by character. -/
def htmlEscape (s : String) : String :=
  String.mk (s.data.map escapeChar).flatten

/-- SourceMarkerGenerator::htmlMessage (FindReferences.cpp lines 121-148).
`unsigned col = loc.column - 1` is modelled with Nat subtraction, which
agrees with the C++ unsigned arithmetic whenever `1 ≤ column` (columns are
1-based); theorems about this function carry that hypothesis. -/
def htmlMessage (loc : CursorLocation) (message : String) : String :=
  let col := loc.column - 1
  if col + loc.extent < message.length then
    if loc.extent = 0 then
      "<strong>" ++ htmlEscape message ++ "</strong>"
    else
      htmlEscape (substr message 0 col) ++ "<strong>" ++
        htmlEscape (substr message col loc.extent) ++ "</strong>" ++
        htmlEscape (substrFrom message (col + loc.extent))
  else
    htmlEscape message

/-- The data of one AST cursor that findReferencesVisitor inspects: the
cursor's own location, and the validity / declaration-ness / USR of the
cursor returned by getReferenced(). -/
structure CursorData where
  loc : CursorLocation
  refValid : Bool
  refIsDecl : Bool
  refUSR : String
deriving DecidableEq, Repr

/-- An AST cursor together with its children, the shape traversed by
clang_visitChildren. -/
inductive Ast where
  | node : CursorData → List Ast → Ast
deriving Repr

/-- Modelled from the spec (section 6): visitor return values mean
"continue to sibling" (children are not visited) or "recurse into
children"; the Break value is never produced by this visitor. -/
inductive CXChildVisitResult where
  | Continue
  | Recurse
deriving DecidableEq, Repr

/-- Modelled from the spec (glossary): the main file is the searched file,
so a location is "from the main file" exactly when its file path is the
searched file's path.  (The libclang SourceLocation wrapper is outside the
excerpt.) -/
def isFromMainFile (mainFile : String) (loc : CursorLocation) : Bool :=
  loc.filePath = mainFile

/-- findReferencesVisitor (FindReferences.cpp lines 56-82): returns the
visit result together with the list of locations pushed onto
FindReferencesData::references by this single visit (empty or a
singleton). -/
def findReferencesVisitor (usr mainFile : String) (d : CursorData) :
    CXChildVisitResult × List CursorLocation :=
  if !(isFromMainFile mainFile d.loc) then
    (CXChildVisitResult.Continue, [])
  else if d.refValid && d.refIsDecl && (d.refUSR == usr) then
    (CXChildVisitResult.Recurse, [d.loc])
  else
    (CXChildVisitResult.Recurse, [])

/-- clang_visitChildren driven by findReferencesVisitor, modelled from the
spec's section 6 contract for the traversal: each cursor of the forest is
visited in pre-order; a Continue result moves to the next sibling without
visiting children, a Recurse result visits the children first.  `acc` is
the accumulated FindReferencesData::references vector. -/
def visitForest (usr mainFile : String) : List Ast → List CursorLocation → List CursorLocation
  | [], acc => acc
  | Ast.node d cs :: rest, acc =>
    match findReferencesVisitor usr mainFile d with
    | (CXChildVisitResult.Continue, recs) =>
        visitForest usr mainFile rest (acc ++ recs)
    | (CXChildVisitResult.Recurse, recs) =>
        visitForest usr mainFile rest (visitForest usr mainFile cs (acc ++ recs))
termination_by l _ => sizeOf l

/-- Modelled from the spec (section 4.2): the visitor the spec describes,
which "skips recording but still recurses into its children" for
non-main-file cursors — i.e. it never returns Continue.  Used to compare
the spec's description of the traversal with the code's. -/
def findReferencesVisitorSpec (usr mainFile : String) (d : CursorData) :
    CXChildVisitResult × List CursorLocation :=
  if !(isFromMainFile mainFile d.loc) then
    (CXChildVisitResult.Recurse, [])
  else if d.refValid && d.refIsDecl && (d.refUSR == usr) then
    (CXChildVisitResult.Recurse, [d.loc])
  else
    (CXChildVisitResult.Recurse, [])

/-- The traversal of the spec's section 4.2: same driver as visitForest but
with the spec's never-prune visitor. -/
def visitForestSpec (usr mainFile : String) : List Ast → List CursorLocation → List CursorLocation
  | [], acc => acc
  | Ast.node d cs :: rest, acc =>
    match findReferencesVisitorSpec usr mainFile d with
    | (CXChildVisitResult.Continue, recs) =>
        visitForestSpec usr mainFile rest (acc ++ recs)
    | (CXChildVisitResult.Recurse, recs) =>
        visitForestSpec usr mainFile rest (visitForestSpec usr mainFile cs (acc ++ recs))
termination_by l _ => sizeOf l

/-- The environment findReferences (FindReferences.cpp lines 206-235)
consults: the cursor resolved by referencedCursorForFileLocation, the
translation unit, and the searched file's path (location.filePath). -/
structure FindRefsEnv where
  refCursorValid : Bool
  refCursorIsDecl : Bool
  refCursorUSR : String
  tuEmpty : Bool
  tuChildren : List Ast
  mainFilePath : String

/-- Result of findReferences: the final value of the out-parameter *pRefs
and whether visitChildren (the Reference Collector) was invoked.  The
function returns Success() on every path of the source, so no error
channel is modelled. -/
structure FindRefsResult where
  refs : List CursorLocation
  visitedCollector : Bool
deriving DecidableEq, Repr

/-- findReferences (FindReferences.cpp lines 206-235).  `pRefs` is the
value of *pRefs on entry; it is overwritten only on the path that runs
the collector. -/
def findReferences (env : FindRefsEnv) (pRefs : List CursorLocation) : FindRefsResult :=
  if !env.refCursorValid || !env.refCursorIsDecl then
    ⟨pRefs, false⟩
  else if env.refCursorUSR == "" then
    ⟨pRefs, false⟩
  else if env.tuEmpty then
    ⟨pRefs, false⟩
  else
    ⟨visitForest env.refCursorUSR env.mainFilePath env.tuChildren [], true⟩

/-- One entry of the index's unsaved-files array (CXUnsavedFile): filename
and in-memory contents.  The Length field of CXUnsavedFile is subsumed by
the contents string. -/
structure UnsavedFile where
  Filename : String
  Contents : String
deriving DecidableEq, Repr

/-- boost::algorithm::split on the newline character: auxiliary loop over
the characters, `cur` holds the current piece reversed. -/
def splitLinesAux : List Char → List Char → List String
  | [], cur => [String.mk cur.reverse]
  | c :: cs, cur =>
    if c = '\n' then String.mk cur.reverse :: splitLinesAux cs []
    else splitLinesAux cs (c :: cur)

/-- boost::algorithm::split of a string into lines on the newline
character (FindReferences.cpp lines 169-171). -/
def splitLines (contents : String) : List String :=
  splitLinesAux contents.data []

/-- The SourceFileContentsMap cache, as an association list keyed by
filename (std::map with insert-if-absent discipline). -/
def Cache := List (String × List String)

/-- std::map::find on the cache. -/
def cacheFind : Cache → String → Option (List String)
  | [], _ => none
  | (k, v) :: rest, name => if k = name then some v else cacheFind rest name

/-- Linear scan of the unsaved-files array for an exact filename match
(FindReferences.cpp lines 162-178), returning the matching contents. -/
def lookupUnsaved : List UnsavedFile → String → Option String
  | [], _ => none
  | f :: rest, name =>
    if f.Filename = name then some f.Contents else lookupUnsaved rest name

/-- The on-disk file system as seen by readStringVectorFromFile: `some
lines` on a successful read, `none` when the read fails (the error is
logged and the lines vector stays empty). -/
structure DiskModel where
  read : String → Option (List String)

/-- Result of one fileContents call: the returned line vector, the cache
state after the call, and whether a disk read was attempted. -/
structure FileContentsResult where
  lines : List String
  cache : Cache
  diskRead : Bool

/-- SourceMarkerGenerator::fileContents (FindReferences.cpp lines 152-198):
on a cache miss, first scan the unsaved files for an exact path match and
cache its contents split on newlines; only otherwise read from disk,
caching the empty vector when the read fails. -/
def fileContents (unsaved : List UnsavedFile) (disk : DiskModel) (cache : Cache)
    (filename : String) : FileContentsResult :=
  match cacheFind cache filename with
  | some lines => ⟨lines, cache, false⟩
  | none =>
    match lookupUnsaved unsaved filename with
    | some contents =>
        let lines := splitLines contents
        ⟨lines, (filename, lines) :: cache, false⟩
    | none =>
        let lines :=
          match disk.read filename with
          | some l => l
          | none => []
        ⟨lines, (filename, lines) :: cache, true⟩

end FindRefs

namespace Win32Capture

/-- Interpret the signed int returned by ::_read as the DWORD (unsigned
32-bit) variable bytesRead it is assigned to
(Win32OutputCapture.cpp line 50). -/
def toDWORD (r : Int) : Nat :=
  (r % (2 : Int) ^ 32).toNat

/-- What one iteration of the standardStreamCaptureThread loop does after
the ::_read call. -/
inductive ReadOutcome where
  | invokeHandler (len : Nat)
  | breakLoop
  | logAndRetry
deriving DecidableEq, Repr

/-- One iteration of the loop body of standardStreamCaptureThread
(Win32OutputCapture.cpp lines 43-69), as a function of the value returned
by ::_read: `bytesRead` is a DWORD, and the branches compare it exactly as
the source does. -/
def standardStreamCaptureStep (readResult : Int) : ReadOutcome :=
  let bytesRead := toDWORD readResult
  if bytesRead > 0 then ReadOutcome.invokeHandler bytesRead
  else if bytesRead = 0 then ReadOutcome.breakLoop
  else ReadOutcome.logAndRetry

/-- Which step of redirectToPipe produced the returned error. -/
inductive RedirectError where
  | pipeFailed
  | invalidWriteHandle
  | setStdHandleFailed
  | dup2Failed
  | setvbufFailed
deriving DecidableEq, Repr

/-- Outcomes of the OS calls redirectToPipe makes, in source order. -/
structure RedirectEnv where
  pipeRet : Int
  writeHandleValid : Bool
  setStdHandleOk : Bool
  dup2Ret : Int
  setvbufRet : Int

/-- Result of redirectToPipe: the error returned (none on success) and
whether execution proceeded past the ::_pipe check into the handle
redirection / descriptor duplication steps. -/
structure RedirectOutcome where
  error : Option RedirectError
  proceeded : Bool
deriving DecidableEq, Repr

/-- redirectToPipe (Win32OutputCapture.cpp lines 83-120).  The source
tests `if (!::_pipe(pdfs, 4096, O_TEXT))`, and `!x` holds exactly when
x equals 0, so the error return fires exactly when ::_pipe returns 0. -/
def redirectToPipe (env : RedirectEnv) : RedirectOutcome :=
  if env.pipeRet = 0 then ⟨some RedirectError.pipeFailed, false⟩
  else if !env.writeHandleValid then ⟨some RedirectError.invalidWriteHandle, true⟩
  else if !env.setStdHandleOk then ⟨some RedirectError.setStdHandleFailed, true⟩
  else if env.dup2Ret ≠ 0 then ⟨some RedirectError.dup2Failed, true⟩
  else if env.setvbufRet ≠ 0 then ⟨some RedirectError.setvbufFailed, true⟩
  else ⟨none, true⟩

/-- Environment of one captureStandardStreams call: OS-call outcomes for
the stdout redirection, whether a stderr handler was supplied, and the
OS-call outcomes for the stderr redirection. -/
structure CaptureEnv where
  stdoutEnv : RedirectEnv
  hasStderrHandler : Bool
  stderrEnv : RedirectEnv

/-- Result of captureStandardStreams: the error returned (none on
success) and which capture reader threads were created. -/
structure CaptureOutcome where
  error : Option RedirectError
  stdoutThreadStarted : Bool
  stderrThreadStarted : Bool
deriving DecidableEq, Repr

/-- captureStandardStreams (Win32OutputCapture.cpp lines 125-163): redirect
stdout, start its reader thread, then when a stderr handler was supplied
redirect stderr and start its reader thread. -/
def captureStandardStreams (env : CaptureEnv) : CaptureOutcome :=
  match (redirectToPipe env.stdoutEnv).error with
  | some e => ⟨some e, false, false⟩
  | none =>
    if env.hasStderrHandler then
      match (redirectToPipe env.stderrEnv).error with
      | some e => ⟨some e, true, false⟩
      | none => ⟨none, true, true⟩
    else ⟨none, true, false⟩

/-- All redirectToPipe steps after the ::_pipe call succeed. -/
def otherStepsOk (e : RedirectEnv) : Prop :=
  e.writeHandleValid = true ∧ e.setStdHandleOk = true ∧ e.dup2Ret = 0 ∧ e.setvbufRet = 0

end Win32Capture

namespace FindRefs

/-- Everything findReferencesVisitor records on a single visit is located
in the main file. -/
theorem findReferencesVisitor_snd_mainFile (usr mf : String) (d : CursorData) :
    ∀ x ∈ (findReferencesVisitor usr mf d).2, x.filePath = mf := by
  intro x hx
  unfold findReferencesVisitor at hx
  cases h : isFromMainFile mf d.loc with
  | false => simp [h] at hx
  | true =>
    simp only [h, Bool.not_true, Bool.false_eq_true, if_false] at hx
    split at hx
    · rcases List.mem_singleton.mp hx with rfl
      simpa [isFromMainFile] using h
    · cases hx

/-- The accumulated references of the traversal stay inside the main file:
if every location already in `acc` is from the main file, so is every
location of the traversal's result. -/
theorem mem_visitForest_mainFile (usr mf : String) (t : List Ast) (acc : List CursorLocation) :
    (∀ x ∈ acc, x.filePath = mf) → ∀ x ∈ visitForest usr mf t acc, x.filePath = mf := by
  induction t, acc using visitForest.induct usr mf with
  | case1 acc =>
    intro hacc
    simpa [visitForest] using hacc
  | case2 d cs rest acc recs heq ih =>
    intro hacc
    rw [visitForest, heq]
    apply ih
    intro x hx
    rcases List.mem_append.mp hx with h | h
    · exact hacc x h
    · have := findReferencesVisitor_snd_mainFile usr mf d
      rw [heq] at this
      exact this x h
  | case3 d cs rest acc recs heq ih1 ih2 =>
    intro hacc
    rw [visitForest, heq]
    apply ih2
    apply ih1
    intro x hx
    rcases List.mem_append.mp hx with h | h
    · exact hacc x h
    · have := findReferencesVisitor_snd_mainFile usr mf d
      rw [heq] at this
      exact this x h

/-- After a fileContents call the cache maps the requested filename to the
returned line vector. -/
theorem cacheFind_fileContents (unsaved : List UnsavedFile) (disk : DiskModel)
    (cache : Cache) (filename : String) :
    cacheFind (fileContents unsaved disk cache filename).cache filename =
      some (fileContents unsaved disk cache filename).lines := by
  unfold fileContents
  cases hc : cacheFind cache filename with
  | some lines => simp [hc]
  | none => cases hu : lookupUnsaved unsaved filename <;> simp [hc, hu, cacheFind]

/-- Claim C1, counterexample: in the AST consisting of one non-main-file
cursor whose only child is a main-file cursor referencing the searched
USR, the code's traversal records nothing — the nested main-file reference
is not found, although its own visit would record it — while the spec's
never-prune traversal does find it.  The main-file filter therefore does
prune traversal, refuting the claim. -/
theorem visitForest_prunes_nested_mainFile_cx :
    visitForest "u" "main.cpp"
        [Ast.node ⟨⟨"header.h", 1, 1, 0⟩, false, false, ""⟩
          [Ast.node ⟨⟨"main.cpp", 1, 1, 3⟩, true, true, "u"⟩ []]] [] = [] ∧
    isFromMainFile "main.cpp" ⟨"main.cpp", 1, 1, 3⟩ = true ∧
    (findReferencesVisitor "u" "main.cpp" ⟨⟨"main.cpp", 1, 1, 3⟩, true, true, "u"⟩).2 =
      [⟨"main.cpp", 1, 1, 3⟩] ∧
    visitForestSpec "u" "main.cpp"
        [Ast.node ⟨⟨"header.h", 1, 1, 0⟩, false, false, ""⟩
          [Ast.node ⟨⟨"main.cpp", 1, 1, 3⟩, true, true, "u"⟩ []]] [] =
      [⟨"main.cpp", 1, 1, 3⟩] := by
  refine ⟨?_, by decide, by decide, ?_⟩
  · simp [visitForest, findReferencesVisitor, isFromMainFile]
  · simp [visitForestSpec, findReferencesVisitorSpec, isFromMainFile]

/-- Claim C1, amended: a visited cursor whose source location is not from
the main file is skipped for recording and its children are skipped as
well: the visitor returns the continue-to-sibling result, so the main-file
filter prunes both recording and traversal of that whole subtree. -/
theorem visitForest_continue_prunes_subtree (usr mf : String) (d : CursorData)
    (cs rest : List Ast) (acc : List CursorLocation)
    (h : isFromMainFile mf d.loc = false) :
    visitForest usr mf (Ast.node d cs :: rest) acc = visitForest usr mf rest acc := by
  rw [visitForest]
  simp [findReferencesVisitor, h]

/-- Witness for the amended C1 theorem at a concrete subtree. -/
theorem visitForest_continue_prunes_subtree_witness :
    visitForest "u" "main.cpp"
        [Ast.node ⟨⟨"header.h", 1, 1, 0⟩, false, false, ""⟩
          [Ast.node ⟨⟨"main.cpp", 2, 1, 1⟩, true, true, "u"⟩ []],
         Ast.node ⟨⟨"main.cpp", 3, 1, 1⟩, true, true, "u"⟩ []] [] =
      visitForest "u" "main.cpp"
        [Ast.node ⟨⟨"main.cpp", 3, 1, 1⟩, true, true, "u"⟩ []] [] ∧
    visitForest "u" "main.cpp"
        [Ast.node ⟨⟨"main.cpp", 3, 1, 1⟩, true, true, "u"⟩ []] [] =
      [⟨"main.cpp", 3, 1, 1⟩] := by
  constructor
  · exact visitForest_continue_prunes_subtree "u" "main.cpp"
      ⟨⟨"header.h", 1, 1, 0⟩, false, false, ""⟩
      [Ast.node ⟨⟨"main.cpp", 2, 1, 1⟩, true, true, "u"⟩ []]
      [Ast.node ⟨⟨"main.cpp", 3, 1, 1⟩, true, true, "u"⟩ []] [] (by decide)
  · simp [visitForest, findReferencesVisitor, isFromMainFile]

/-- Claim C2, counterexample: at line "foo" with column 1 and extent 3,
col + extent equals the line length (so it is not strictly greater), yet
htmlMessage falls back to the whole line HTML-escaped instead of the
three-part highlighted concatenation the claim requires. -/
theorem htmlMessage_boundary_cx :
    ¬ (1 - 1 + 3 > String.length "foo") ∧
    htmlMessage ⟨"m", 1, 1, 3⟩ "foo" = htmlEscape "foo" ∧
    htmlMessage ⟨"m", 1, 1, 3⟩ "foo" ≠
      htmlEscape (substr "foo" 0 0) ++ "<strong>" ++ htmlEscape (substr "foo" 0 3) ++
        "</strong>" ++ htmlEscape (substrFrom "foo" 3) := by
  exact ⟨by decide, by decide, by decide⟩

/-- Claim C2, amended: for extent > 0 the three-part highlighted rendering
is produced exactly when col + extent is strictly smaller than the line
length; the fallback of the whole line HTML-escaped occurs whenever
col + extent is greater than or equal to the line length. -/
theorem htmlMessage_highlight (loc : CursorLocation) (msg : String)
    (hcol : 1 ≤ loc.column) (hext : 0 < loc.extent) :
    (loc.column - 1 + loc.extent < msg.length →
      htmlMessage loc msg =
        htmlEscape (substr msg 0 (loc.column - 1)) ++ "<strong>" ++
          htmlEscape (substr msg (loc.column - 1) loc.extent) ++ "</strong>" ++
          htmlEscape (substrFrom msg (loc.column - 1 + loc.extent))) ∧
    (msg.length ≤ loc.column - 1 + loc.extent →
      htmlMessage loc msg = htmlEscape msg) := by
  constructor
  · intro h
    unfold htmlMessage
    rw [if_pos h, if_neg hext.ne']
  · intro h
    unfold htmlMessage
    rw [if_neg (Nat.not_lt.mpr h)]

/-- Witness for the amended C2 theorem: the spec's own example line, and
the boundary fallback. -/
theorem htmlMessage_highlight_witness :
    htmlMessage ⟨"m", 1, 5, 3⟩ "int foo = 1;" = "int <strong>foo</strong> = 1;" ∧
    htmlMessage ⟨"m", 1, 2, 3⟩ "foo" = htmlEscape "foo" := by
  constructor
  · exact ((htmlMessage_highlight ⟨"m", 1, 5, 3⟩ "int foo = 1;"
      (by decide) (by decide)).1 (by decide)).trans (by decide)
  · exact (htmlMessage_highlight ⟨"m", 1, 2, 3⟩ "foo" (by decide) (by decide)).2 (by decide)

/-- Claim C3, counterexample: with extent 0 at column 3 on the line "ab"
(col = 2 is not below the line length), htmlMessage returns the plain
escaped line with no strong wrapper, refuting "at any column". -/
theorem htmlMessage_zero_extent_cx :
    htmlMessage ⟨"m", 1, 3, 0⟩ "ab" = htmlEscape "ab" ∧
    htmlMessage ⟨"m", 1, 3, 0⟩ "ab" ≠ "<strong>" ++ htmlEscape "ab" ++ "</strong>" := by
  exact ⟨by decide, by decide⟩

/-- Claim C3, amended: with extent 0 the entire line is HTML-escaped and
wrapped in a strong marker exactly when col = column - 1 is strictly below
the line length; when col reaches or exceeds the line length the whole
line is returned HTML-escaped with no strong wrapper. -/
theorem htmlMessage_zero_extent (loc : CursorLocation) (msg : String)
    (hcol : 1 ≤ loc.column) (hext : loc.extent = 0) :
    (loc.column - 1 < msg.length →
      htmlMessage loc msg = "<strong>" ++ htmlEscape msg ++ "</strong>") ∧
    (msg.length ≤ loc.column - 1 →
      htmlMessage loc msg = htmlEscape msg) := by
  constructor
  · intro h
    unfold htmlMessage
    rw [hext]
    rw [if_pos (by simpa using h), if_pos rfl]
  · intro h
    unfold htmlMessage
    rw [hext]
    rw [if_neg (by simpa using Nat.not_lt.mpr h)]

/-- Witness for the amended C3 theorem. -/
theorem htmlMessage_zero_extent_witness :
    htmlMessage ⟨"m", 1, 2, 0⟩ "ab" = "<strong>ab</strong>" ∧
    htmlMessage ⟨"m", 1, 4, 0⟩ "ab" = htmlEscape "ab" := by
  constructor
  · exact ((htmlMessage_zero_extent ⟨"m", 1, 2, 0⟩ "ab" (by decide) rfl).1
      (by decide)).trans (by decide)
  · exact (htmlMessage_zero_extent ⟨"m", 1, 4, 0⟩ "ab" (by decide) rfl).2 (by decide)

/-- Claim C6: when the resolved cursor is a valid declaration whose USR is
empty, findReferences succeeds with the empty reference sequence and the
collector is never invoked. -/
theorem findReferences_emptyUSR (env : FindRefsEnv)
    (hv : env.refCursorValid = true) (hd : env.refCursorIsDecl = true)
    (hu : env.refCursorUSR = "") :
    findReferences env [] = ⟨[], false⟩ := by
  simp [findReferences, hv, hd, hu]

/-- Witness for C6. -/
theorem findReferences_emptyUSR_witness :
    findReferences ⟨true, true, "", false, [], "main.cpp"⟩ [] = ⟨[], false⟩ :=
  findReferences_emptyUSR ⟨true, true, "", false, [], "main.cpp"⟩ rfl rfl rfl

/-- Claim C7: on every early-return path (invalid cursor, non-declaration,
empty USR, empty translation unit) findReferences leaves *pRefs exactly as
passed in and never runs the collector; *pRefs is overwritten (with the
collector's result, started from the empty accumulator) only on the path
where the collector runs. -/
theorem findReferences_frame (env : FindRefsEnv) (pRefs : List CursorLocation) :
    ((env.refCursorValid = false ∨ env.refCursorIsDecl = false ∨
        env.refCursorUSR = "" ∨ env.tuEmpty = true) →
      findReferences env pRefs = ⟨pRefs, false⟩) ∧
    (env.refCursorValid = true → env.refCursorIsDecl = true →
      env.refCursorUSR ≠ "" → env.tuEmpty = false →
      findReferences env pRefs =
        ⟨visitForest env.refCursorUSR env.mainFilePath env.tuChildren [], true⟩) := by
  constructor
  · intro h
    unfold findReferences
    split
    · rfl
    · next hcond =>
      split
      · rfl
      · next husr =>
        split
        · rfl
        · next htu =>
          exfalso
          rcases h with h | h | h | h <;> simp [h] at hcond husr htu
  · intro hv hd hu htu
    simp [findReferences, hv, hd, htu, hu]

/-- Witness for C7: an early path keeps a nonempty *pRefs untouched, and
the full path overwrites *pRefs with the collector's result. -/
theorem findReferences_frame_witness :
    findReferences ⟨false, true, "u", false, [], "m"⟩ [⟨"x", 1, 1, 1⟩] =
      ⟨[⟨"x", 1, 1, 1⟩], false⟩ ∧
    findReferences ⟨true, true, "u", false,
        [Ast.node ⟨⟨"m", 1, 1, 1⟩, true, true, "u"⟩ []], "m"⟩ [⟨"x", 1, 1, 1⟩] =
      ⟨visitForest "u" "m" [Ast.node ⟨⟨"m", 1, 1, 1⟩, true, true, "u"⟩ []] [], true⟩ ∧
    visitForest "u" "m" [Ast.node ⟨⟨"m", 1, 1, 1⟩, true, true, "u"⟩ []] [] =
      [⟨"m", 1, 1, 1⟩] := by
  refine ⟨(findReferences_frame _ _).1 (Or.inl rfl),
    (findReferences_frame _ _).2 rfl rfl (by decide) rfl,
    by simp [visitForest, findReferencesVisitor, isFromMainFile]⟩

/-- Claim C8: every reference accumulated by findReferences is located in
the searched (main) file. -/
theorem findReferences_only_mainFile_refs (env : FindRefsEnv) (l : CursorLocation)
    (h : l ∈ (findReferences env []).refs) : l.filePath = env.mainFilePath := by
  unfold findReferences at h
  split at h
  · cases h
  · split at h
    · cases h
    · split at h
      · cases h
      · exact mem_visitForest_mainFile env.refCursorUSR env.mainFilePath
          env.tuChildren [] (by intro x hx; cases hx) l h

/-- Witness for C8 at a one-node translation unit. -/
theorem findReferences_only_mainFile_refs_witness :
    (⟨"main.cpp", 1, 1, 1⟩ : CursorLocation) ∈
      (findReferences ⟨true, true, "u", false,
        [Ast.node ⟨⟨"main.cpp", 1, 1, 1⟩, true, true, "u"⟩ []], "main.cpp"⟩ []).refs ∧
    (⟨"main.cpp", 1, 1, 1⟩ : CursorLocation).filePath = "main.cpp" := by
  have hmem : (⟨"main.cpp", 1, 1, 1⟩ : CursorLocation) ∈
      (findReferences ⟨true, true, "u", false,
        [Ast.node ⟨⟨"main.cpp", 1, 1, 1⟩, true, true, "u"⟩ []], "main.cpp"⟩ []).refs := by
    simp [findReferences, visitForest, findReferencesVisitor, isFromMainFile]
  exact ⟨hmem, findReferences_only_mainFile_refs _ _ hmem⟩

/-- Claim C9: on a cache miss with an exact unsaved-file match, the
unsaved in-memory content split on newlines is returned and cached, no
matter what is on disk; a disk read is attempted only when no unsaved file
matches. -/
theorem fileContents_unsaved_precedence (unsaved : List UnsavedFile) (disk : DiskModel)
    (cache : Cache) (filename contents : String)
    (hmiss : cacheFind cache filename = none) :
    (lookupUnsaved unsaved filename = some contents →
      fileContents unsaved disk cache filename =
        ⟨splitLines contents, (filename, splitLines contents) :: cache, false⟩) ∧
    ((fileContents unsaved disk cache filename).diskRead = true →
      lookupUnsaved unsaved filename = none) := by
  constructor
  · intro hfound
    simp [fileContents, hmiss, hfound]
  · intro hdisk
    cases hu : lookupUnsaved unsaved filename with
    | none => rfl
    | some c => simp [fileContents, hmiss, hu] at hdisk

/-- Witness for C9: the unsaved buffer "a\nb" wins over the on-disk
content ["DISK"]. -/
theorem fileContents_unsaved_precedence_witness :
    (fileContents [⟨"f.cpp", "a\nb"⟩] ⟨fun _ => some ["DISK"]⟩ [] "f.cpp").lines =
      ["a", "b"] ∧
    (fileContents [⟨"f.cpp", "a\nb"⟩] ⟨fun _ => some ["DISK"]⟩ [] "f.cpp").diskRead =
      false ∧
    (["a", "b"] : List String) ≠ ["DISK"] := by
  have h := (fileContents_unsaved_precedence [⟨"f.cpp", "a\nb"⟩] ⟨fun _ => some ["DISK"]⟩
    [] "f.cpp" "a\nb" rfl).1 (by decide)
  refine ⟨?_, ?_, by decide⟩
  · rw [h]; decide
  · rw [h]

/-- Claim C10: a second fileContents lookup for the same path, against the
cache produced by the first lookup, returns the first lookup's lines and
cache unchanged and performs no disk read, whatever the unsaved files and
the disk contain by then. -/
theorem fileContents_stable (unsaved : List UnsavedFile) (disk : DiskModel)
    (cache : Cache) (filename : String) (unsaved2 : List UnsavedFile) (disk2 : DiskModel) :
    fileContents unsaved2 disk2 (fileContents unsaved disk cache filename).cache filename =
      ⟨(fileContents unsaved disk cache filename).lines,
       (fileContents unsaved disk cache filename).cache, false⟩ := by
  have h := cacheFind_fileContents unsaved disk cache filename
  generalize fileContents unsaved disk cache filename = r at h ⊢
  unfold fileContents
  rw [h]

end FindRefs

namespace Win32Capture

/-- Claim C4, evaluation at the failing input: when ::_read reports an
error by returning -1, the DWORD variable bytesRead becomes 4294967295, so
the bytesRead > 0 branch runs and the output handler is invoked; moreover
no read result whatsoever reaches the log-and-retry branch — every
iteration either breaks at 0 or invokes the handler. -/
theorem captureStep_error_invokes_handler :
    standardStreamCaptureStep (-1) = ReadOutcome.invokeHandler 4294967295 ∧
    ∀ r : Int, standardStreamCaptureStep r = ReadOutcome.breakLoop ∨
      ∃ n : Nat, 0 < n ∧ standardStreamCaptureStep r = ReadOutcome.invokeHandler n := by
  constructor
  · decide
  · intro r
    unfold standardStreamCaptureStep
    rcases Nat.eq_zero_or_pos (toDWORD r) with h | h
    · left
      simp [h]
    · right
      exact ⟨toDWORD r, h, by simp [h]⟩

/-- Claim C5: redirectToPipe returns its pipe-creation error exactly when
::_pipe returns 0 and proceeds past the pipe check exactly when ::_pipe
returns nonzero; with every later OS call succeeding,
captureStandardStreams succeeds exactly when ::_pipe returned nonzero for
stdout and (when a stderr handler was supplied) for stderr, and the stdout
reader thread is created exactly when ::_pipe returned nonzero for
stdout. -/
theorem pipe_zero_failure (env : CaptureEnv)
    (h1 : otherStepsOk env.stdoutEnv) (h2 : otherStepsOk env.stderrEnv) :
    ((redirectToPipe env.stdoutEnv).error = some RedirectError.pipeFailed ↔
      env.stdoutEnv.pipeRet = 0) ∧
    ((redirectToPipe env.stdoutEnv).proceeded = true ↔ env.stdoutEnv.pipeRet ≠ 0) ∧
    ((captureStandardStreams env).error = none ↔
      (env.stdoutEnv.pipeRet ≠ 0 ∧
        (env.hasStderrHandler = true → env.stderrEnv.pipeRet ≠ 0))) ∧
    ((captureStandardStreams env).stdoutThreadStarted = true ↔
      env.stdoutEnv.pipeRet ≠ 0) := by
  obtain ⟨a1, a2, a3, a4⟩ := h1
  obtain ⟨b1, b2, b3, b4⟩ := h2
  by_cases hp : env.stdoutEnv.pipeRet = 0 <;>
    by_cases hq : env.stderrEnv.pipeRet = 0 <;>
      cases hh : env.hasStderrHandler <;>
        simp [redirectToPipe, captureStandardStreams, a1, a2, a3, a4, b1, b2, b3, b4,
          hp, hq, hh]

/-- Witness for C5: a zero ::_pipe return yields the pipe error, a nonzero
one proceeds. -/
theorem pipe_zero_failure_witness :
    (redirectToPipe ⟨0, true, true, 0, 0⟩).error = some RedirectError.pipeFailed ∧
    (redirectToPipe ⟨-1, true, true, 0, 0⟩).proceeded = true ∧
    (captureStandardStreams ⟨⟨-1, true, true, 0, 0⟩, false, ⟨0, true, true, 0, 0⟩⟩).error =
      none := by
  refine ⟨?_, ?_, ?_⟩
  · exact (pipe_zero_failure ⟨⟨0, true, true, 0, 0⟩, false, ⟨0, true, true, 0, 0⟩⟩
      ⟨rfl, rfl, rfl, rfl⟩ ⟨rfl, rfl, rfl, rfl⟩).1.mpr rfl
  · exact (pipe_zero_failure ⟨⟨-1, true, true, 0, 0⟩, false, ⟨0, true, true, 0, 0⟩⟩
      ⟨rfl, rfl, rfl, rfl⟩ ⟨rfl, rfl, rfl, rfl⟩).2.1.mpr (by decide)
  · exact (pipe_zero_failure ⟨⟨-1, true, true, 0, 0⟩, false, ⟨0, true, true, 0, 0⟩⟩
      ⟨rfl, rfl, rfl, rfl⟩ ⟨rfl, rfl, rfl, rfl⟩).2.2.1.mpr ⟨by decide, by intro h; cases h⟩

end Win32Capture
